import Mathlib

/-!
Verification of the moexalgo request-pagination and type-coercion pipeline.

Shallow embedding of the relevant parts of the repository:
* `src/moexalgo/metrics.py` — `calc_offset_limit`, `prepare_from_till_dates`, `DCls.__getattr__`
* `src/moexalgo/utils.py` — `item_normalizer`, the `json.dumps` default encoder
* `src/moexalgo/session.py` — `data_gen`, the throttle step of `Client.get_objects`
* `src/moexalgo/market.py` — `_ALIASES`, `Market.__new__`
* `src/moexalgo/tickers.py` — `_resolve_ticker`
* `src/moexalgo/tools/resample.py` — `_tradestats_calculator`

Python `date` / `time` / `datetime` values are modelled by `MDate` / `MTime` /
`MDateTime` (no microseconds; the wire format carries none), together with models
of the stdlib `fromisoformat` parsers restricted to the canonical zero-padded
ISO shapes that `isoformat` produces.
-/

/-- Numeric value of a decimal digit character, `none` for non-digits. -/
def digitVal (c : Char) : Option Nat :=
  if c.isDigit then some (c.toNat - 48) else none

/-- Model of a Python `datetime.date`: a (year, month, day) triple. -/
structure MDate where
  year : Nat
  month : Nat
  day : Nat
deriving DecidableEq, Repr

/-- Gregorian leap-year rule used by Python's `datetime`. -/
def isLeapYear (y : Nat) : Bool := y % 4 == 0 && (y % 100 != 0 || y % 400 == 0)

/-- Days in a month, as validated by the Python `date` constructor. -/
def daysInMonth (y m : Nat) : Nat :=
  if m = 2 then (if isLeapYear y then 29 else 28)
  else if m = 4 ∨ m = 6 ∨ m = 9 ∨ m = 11 then 30
  else 31

/-- The range the Python `date` constructor accepts (`MINYEAR = 1`, `MAXYEAR = 9999`). -/
def MDate.Valid (d : MDate) : Prop :=
  1 ≤ d.year ∧ d.year ≤ 9999 ∧ 1 ≤ d.month ∧ d.month ≤ 12 ∧
    1 ≤ d.day ∧ d.day ≤ daysInMonth d.year d.month

instance (d : MDate) : Decidable d.Valid := by unfold MDate.Valid; infer_instance

/-- Two-digit zero-padded rendering (`"%02d"` for values below 100). -/
def pad2 (n : Nat) : List Char := [Nat.digitChar (n / 10), Nat.digitChar (n % 10)]

/-- Four-digit zero-padded rendering (`"%04d"` for values below 10000). -/
def pad4 (n : Nat) : List Char :=
  [Nat.digitChar (n / 1000), Nat.digitChar (n / 100 % 10),
   Nat.digitChar (n / 10 % 10), Nat.digitChar (n % 10)]

/-- Characters of `date.isoformat()`: `YYYY-MM-DD`. -/
def MDate.isoChars (d : MDate) : List Char :=
  pad4 d.year ++ '-' :: (pad2 d.month ++ '-' :: pad2 d.day)

/-- `date.isoformat()`. -/
def MDate.isoformat (d : MDate) : String := String.mk d.isoChars

/-- Model of `date.fromisoformat` on the canonical `YYYY-MM-DD` shape: exactly ten
characters, digits in the date positions, dashes between, ranges validated as the
`date` constructor does.  Any other string is a `ValueError`, i.e. `none`. -/
def parseDateChars (l : List Char) : Option MDate :=
  match l with
  | [y1, y2, y3, y4, s1, m1, m2, s2, d1, d2] =>
    if s1 = '-' ∧ s2 = '-' then
      (digitVal y1).bind fun a =>
      (digitVal y2).bind fun b =>
      (digitVal y3).bind fun c =>
      (digitVal y4).bind fun e =>
      (digitVal m1).bind fun f =>
      (digitVal m2).bind fun g =>
      (digitVal d1).bind fun h1 =>
      (digitVal d2).bind fun h2 =>
        if 1 ≤ ((a * 10 + b) * 10 + c) * 10 + e ∧ ((a * 10 + b) * 10 + c) * 10 + e ≤ 9999 ∧
            1 ≤ f * 10 + g ∧ f * 10 + g ≤ 12 ∧ 1 ≤ h1 * 10 + h2 ∧
            h1 * 10 + h2 ≤ daysInMonth (((a * 10 + b) * 10 + c) * 10 + e) (f * 10 + g) then
          some ⟨((a * 10 + b) * 10 + c) * 10 + e, f * 10 + g, h1 * 10 + h2⟩
        else none
    else none
  | _ => none

/-- `date.fromisoformat` on strings. -/
def dateFromIso (s : String) : Option MDate := parseDateChars s.data

/-- Model of a Python `datetime.time` without microseconds. -/
structure MTime where
  hour : Nat
  minute : Nat
  second : Nat
deriving DecidableEq, Repr

/-- Ranges accepted by the Python `time` constructor. -/
def MTime.Valid (t : MTime) : Prop := t.hour ≤ 23 ∧ t.minute ≤ 59 ∧ t.second ≤ 59

instance (t : MTime) : Decidable t.Valid := by unfold MTime.Valid; infer_instance

/-- Characters of `time.isoformat()` without microseconds: `HH:MM:SS`. -/
def MTime.isoChars (t : MTime) : List Char :=
  pad2 t.hour ++ ':' :: (pad2 t.minute ++ ':' :: pad2 t.second)

/-- `time.isoformat()`. -/
def MTime.isoformat (t : MTime) : String := String.mk t.isoChars

/-- Model of `time.fromisoformat` on the canonical `HH:MM:SS` shape. -/
def parseTimeChars (l : List Char) : Option MTime :=
  match l with
  | [h1, h2, s1, m1, m2, s2, c1, c2] =>
    if s1 = ':' ∧ s2 = ':' then
      (digitVal h1).bind fun a =>
      (digitVal h2).bind fun b =>
      (digitVal m1).bind fun c =>
      (digitVal m2).bind fun d =>
      (digitVal c1).bind fun e =>
      (digitVal c2).bind fun f =>
        if a * 10 + b ≤ 23 ∧ c * 10 + d ≤ 59 ∧ e * 10 + f ≤ 59 then
          some ⟨a * 10 + b, c * 10 + d, e * 10 + f⟩
        else none
    else none
  | _ => none

/-- `time.fromisoformat` on strings. -/
def timeFromIso (s : String) : Option MTime := parseTimeChars s.data

/-- Model of a Python `datetime.datetime` without microseconds. -/
structure MDateTime where
  date : MDate
  time : MTime
deriving DecidableEq, Repr

/-- Characters of `datetime.isoformat()` without microseconds:
`YYYY-MM-DDTHH:MM:SS`. -/
def MDateTime.isoChars (dt : MDateTime) : List Char :=
  dt.date.isoChars ++ 'T' :: dt.time.isoChars

/-- `datetime.isoformat()`. -/
def MDateTime.isoformat (dt : MDateTime) : String := String.mk dt.isoChars

/-- Model of `datetime.fromisoformat` on the 19-character canonical shape.
Python accepts any single character as the date/time separator, so position 10
is not inspected. -/
def parseDateTimeChars (l : List Char) : Option MDateTime :=
  if l.length = 19 then
    match parseDateChars (l.take 10), parseTimeChars (l.drop 11) with
    | some d, some t => some ⟨d, t⟩
    | _, _ => none
  else none

/-- `datetime.fromisoformat` on strings. -/
def dateTimeFromIso (s : String) : Option MDateTime := parseDateTimeChars s.data

/-- Python `str.strip()` on a character list (ASCII whitespace). -/
def pyStripChars (l : List Char) : List Char :=
  ((l.dropWhile Char.isWhitespace).reverse.dropWhile Char.isWhitespace).reverse

/-- Python `str.strip()`. -/
def pyStrip (s : String) : String := String.mk (pyStripChars s.data)

/-- Python tuple comparison `(y, m, d) < (y, m, d)` used by `date.__lt__`. -/
def MDate.Lt (a b : MDate) : Prop :=
  a.year < b.year ∨ (a.year = b.year ∧
    (a.month < b.month ∨ (a.month = b.month ∧ a.day < b.day)))

instance : DecidableRel MDate.Lt := fun a b => by unfold MDate.Lt; infer_instance

/-! ## `src/moexalgo/metrics.py` — `calc_offset_limit` (lines 91-119)

`offset` and `limit` arrive as Python `int` or `None`; modelled by `Option Int`.
Python's `x or y` returns `y` when `x` is falsy (`None` or `0`). -/

/-- `value or dflt` for an optional integer. -/
def pyOrInt (x : Option Int) (dflt : Int) : Int :=
  match x with
  | Option.none => dflt
  | some v => if v = 0 then dflt else v

/-- `calc_offset_limit(offset, limit)` with its default keyword arguments
`min_limit = 1`, `standart_limit = 10_000`, `max_limit = 50_000`, `min_offset = 0`. -/
def calc_offset_limit (offset limit : Option Int) : Int × Int :=
  let min_limit : Int := 1
  let standart_limit : Int := 10000
  let max_limit : Int := 50000
  let min_offset : Int := 0
  let offset := pyOrInt offset min_offset
  if limit ≠ some (-1) then
    let limit := pyOrInt limit standart_limit
    let limit := if limit < min_limit then min_limit
      else if limit > max_limit then max_limit else limit
    let offset := if offset < min_offset then min_offset
      else if offset ≥ max_limit then max_limit - 1 else offset
    (offset, limit)
  else
    -- `limit` is exactly `-1` here and is returned unchanged
    (offset, -1)

/-! ## `src/moexalgo/metrics.py` — `prepare_from_till_dates` (lines 122-151)

Each bound arrives as a Python `str`, a `date`, or `None`.  The possible raised
exceptions are `ISSTickerParamException` (either bound is `None`),
`ISSDateParamException` (`from_date > till_date`), and the `ValueError` that
`date.fromisoformat` raises for a non-ISO string such as `"today"` or `""`.
`date.today()` is passed in as the `today` parameter. -/

inductive DateArg
  | pyNone
  | pyStr (s : String)
  | pyDate (d : MDate)
deriving DecidableEq

inductive DatesError
  | tickerParam  -- ISSTickerParamException
  | dateParam    -- ISSDateParamException
  | valueError   -- ValueError raised by date.fromisoformat
deriving DecidableEq

/-- `prepare_from_till_dates(from_date, till_date)`.  Mirrors the source line by
line: the `None` guard raises `ISSTickerParamException`; a string `from_date` is
parsed with `date.fromisoformat` (a `date` object is truthy, so
`from_date or date.today()` is `from_date` itself); `if not till_date` is only
reachable by the empty string, which then defaults to `from_date`; a string
`till_date` equal to `"today"` becomes the current date; finally
`from_date > till_date` raises `ISSDateParamException`. -/
def prepare_from_till_dates (today : MDate) (from_date till_date : DateArg) :
    Except DatesError (String × String) :=
  match from_date, till_date with
  | .pyNone, _ => .error .tickerParam
  | _, .pyNone => .error .tickerParam
  | f, t =>
    let fd? : Except DatesError MDate :=
      match f with
      | .pyStr s =>
        match dateFromIso s with
        | some d => .ok d
        | Option.none => .error .valueError
      | .pyDate d => .ok d
      | .pyNone => .error .tickerParam
    match fd? with
    | .error e => .error e
    | .ok fd =>
      let td? : Except DatesError MDate :=
        match t with
        | .pyStr s =>
          if s = "" then .ok fd
          else if s = "today" then .ok today
          else
            match dateFromIso s with
            | some d => .ok d
            | Option.none => .error .valueError
        | .pyDate d => .ok d
        | .pyNone => .error .tickerParam
      match td? with
      | .error e => .error e
      | .ok td =>
        if MDate.Lt td fd then .error .dateParam
        else .ok (fd.isoformat, td.isoformat)

/-! ## `src/moexalgo/metrics.py` — `DCls.__getattr__` (lines 49-68)

A `DCls` is a `dict` subclass built from keyword arguments; modelled as an
association list from field name to stored value (`α` instantiated with an
optional value so that a stored Python `None` is representable).  `__getattr__`
is invoked by Python only after ordinary attribute lookup fails; a name starting
with `'_'` is forwarded to `__getattribute__`, which fails again with
`AttributeError` for such names, and otherwise a missing key's `KeyError` is
re-raised as `AttributeError`. -/

inductive AttrResult (α : Type)
  | ok (v : α)
  | attributeError
deriving DecidableEq

/-- `name.startswith('_')`. -/
def startsWithUnderscore (s : String) : Bool :=
  match s.data with
  | '_' :: _ => true
  | _ => false

/-- Attribute access on a `DCls` record via `DCls.__getattr__`. -/
def dclsGetattr {α : Type} (fields : List (String × α)) (name : String) : AttrResult α :=
  if startsWithUnderscore name then .attributeError
  else
    match fields.lookup name with
    | some v => .ok v
    | Option.none => .attributeError

/-! ## `src/moexalgo/utils.py` — wire cells

A wire cell is a parsed JSON scalar as `json.loads` delivers it to
`item_normalizer`: an integer, a floating-point number (modelled exactly by a
rational), a string, or null.  `encodeCell` is the cell-level content of
`json.dumps(..., default=default)` (lines 133-170): `date`/`datetime`/`time`
objects are emitted as their `isoformat()` strings, numbers and strings as JSON
numbers and strings, `None` as null. -/

inductive Cell
  | cInt (n : Int)
  | cFloat (q : Rat)
  | cStr (s : String)
  | cNull
deriving DecidableEq

inductive TypedValue
  | vInt (n : Int)
  | vFloat (q : Rat)
  | vDate (d : MDate)
  | vDateTime (t : MDateTime)
  | vTime (t : MTime)
  | vStr (s : String)
  | vNull
deriving DecidableEq

/-- Encoding of one typed value into its wire cell (`json.dumps` with the
`default` hook of `src/moexalgo/utils.py`). -/
def encodeCell : TypedValue → Cell
  | .vInt n => .cInt n
  | .vFloat q => .cFloat q
  | .vDate d => .cStr d.isoformat
  | .vDateTime t => .cStr t.isoformat
  | .vTime t => .cStr t.isoformat
  | .vStr s => .cStr s
  | .vNull => .cNull

/-- Python `str(...)` applied to a wire cell, as the fallback conversion of
`item_normalizer` does for type tags outside its `conv` table.  `str(None)` is
the string `"None"`.  The `repr` rendering of a float is left unmodelled
(`none`); no claim exercises it. -/
def pyStrOfCell : Cell → Option String
  | .cStr s => some s
  | .cInt n => some (toString n)
  | .cNull => some "None"
  | .cFloat _ => Option.none

/-- Python `int(float)` truncates toward zero. -/
def intOfRat (q : Rat) : Int := if 0 ≤ q then q.floor else q.ceil

/-- One field conversion of `item_normalizer` (`src/moexalgo/utils.py` lines
207-235): the `conv` table keyed by the declared type tag, with `str` as the
fallback for unknown tags.  The result is `none` when the Python code would
raise (e.g. `fromisoformat` on a malformed string) or where a coercion is not
modelled (numeric parsing of strings, float `repr`); `some .vNull` is a
returned `None`. -/
def item_normalizer_conv (typeTag : String) (c : Cell) : Option TypedValue :=
  if typeTag = "int32" ∨ typeTag = "int64" then
    match c with
    | .cNull => some .vNull
    | .cInt n => some (.vInt n)
    | .cFloat q => some (.vInt (intOfRat q))
    | .cStr _ => Option.none
  else if typeTag = "double" then
    match c with
    | .cNull => some .vNull
    | .cInt n => some (.vFloat (n : Rat))
    | .cFloat q => some (.vFloat q)
    | .cStr _ => Option.none
  else if typeTag = "date" then
    -- `date.fromisoformat(s.strip()) if (s is not None) and (s != '0000-00-00') else None`
    match c with
    | .cNull => some .vNull
    | .cStr s =>
      if s = "0000-00-00" then some .vNull
      else (dateFromIso (pyStrip s)).map .vDate
    | _ => Option.none
  else if typeTag = "datetime" then
    match c with
    | .cNull => some .vNull
    | .cStr s => (dateTimeFromIso (pyStrip s)).map .vDateTime
    | _ => Option.none
  else if typeTag = "time" then
    match c with
    | .cNull => some .vNull
    | .cStr s => (timeFromIso (pyStrip s)).map .vTime
    | _ => Option.none
  else
    (pyStrOfCell c).map .vStr

/-! ## `src/moexalgo/session.py` — `data_gen` (lines 430-474)

The transport is abstracted as a function from the cursor value (the `start`
query parameter) to the list of records of that page, exactly the
`items.get(section)` sequence a deserialized response yields (an absent or
empty section is the empty list).  The generator is embedded with fuel counting
transport calls; `none` means the fuel ran out before the generator returned. -/

/-- The inner `for item in metrics` loop of `data_gen`: yields items one by one,
advancing `start` per record; after yielding, `(start - offset) >= limit and
limit > 0` returns from the generator mid-page.  Returns the yielded items, the
new cursor, and whether the mid-page return fired. -/
def yieldPage (offset limit : Int) : List α → Int → List α × Int × Bool
  | [], start => ([], start, false)
  | item :: rest, start =>
    let start1 := start + 1
    if start1 - offset ≥ limit ∧ limit > 0 then ([item], start1, true)
    else
      let r := yieldPage offset limit rest start1
      (item :: r.1, r.2.1, r.2.2)

/-- The `while True` page loop of `data_gen`, with `fuel` bounding the number of
transport calls. -/
def data_gen_aux (fetch : Int → List α) (offset limit : Int) : Nat → Int → Option (List α)
  | 0, _ => Option.none
  | fuel + 1, start =>
    let page := fetch start
    match page with
    | [] => some []
    | _ =>
      let r := yieldPage offset limit page start
      if r.2.2 then some r.1
      else if limit < 0 then some r.1
      else (data_gen_aux fetch offset limit fuel r.2.1).map (r.1 ++ ·)

/-- `data_gen(cs, path, options, offset, limit, section)` as a pure function of
the transport. -/
def data_gen (fetch : Int → List α) (offset limit : Int) (fuel : Nat) : Option (List α) :=
  data_gen_aux fetch offset limit fuel offset

/-- A deterministic transport holding the fixed record list `records`, served in
cursor-based pages of size `pageSize`: the page at cursor `start` is
`records[start : start + pageSize]`. -/
def pagedTransport (records : List α) (pageSize : Nat) (start : Int) : List α :=
  (records.drop start.toNat).take pageSize

/-! ## `src/moexalgo/session.py` — the throttle step of `Client.get_objects`
(lines 282-290)

```
timeout = _NEXT_REQUEST_AT - time()
if self.authorized or timeout <= 0:
    timeout = 0.2
_NEXT_REQUEST_AT = time() + _REQUEST_TIMEOUT + timeout
```
with `_REQUEST_TIMEOUT = 0.1`.  The two `time()` readings are the parameters
`now` and `now2`; the result is the delay actually slept (`sleep(timeout)` runs
whenever `timeout` is nonzero) and the new watermark `_NEXT_REQUEST_AT`. -/

def get_objects_throttle (authorized : Bool) (now now2 watermark : Rat) : Rat × Rat :=
  let timeout := watermark - now
  let timeout := if authorized = true ∨ timeout ≤ 0 then (1 : Rat) / 5 else timeout
  (timeout, now2 + 1 / 10 + timeout)

/-! ## `src/moexalgo/market.py` — `_ALIASES` (lines 19-33) and the resolution
part of `Market.__new__` (lines 128-179)

`Market.__new__` first resolves `name` to a path: a name without `'/'` is
looked up in `_ALIASES`; for a name absent from `_ALIASES` the lookup yields
`(None, None)` and the following `path.split('/')` crashes with
`AttributeError` (`'NoneType' object has no attribute 'split'`).  A name
containing `'/'` is used as the path directly.  Afterwards a name not in
`_AVAILABLE` raises `NotImplementedError`.  The instance-caching and `_pref`
parts that follow do not affect these outcomes and are not modelled. -/

def ALIASES (name : String) : Option (String × String) :=
  if name = "index" then some ("engines/stock/markets/index", "SNDX")
  else if name = "shares" then some ("engines/stock/markets/shares", "TQBR")
  else if name = "stock" then some ("engines/stock/markets/shares", "TQBR")
  else if name = "stocks" then some ("engines/stock/markets/shares", "TQBR")
  else if name = "EQ" then some ("engines/stock/markets/shares", "TQBR")
  else if name = "selt" then some ("engines/currency/markets/selt", "CETS")
  else if name = "FX" then some ("engines/currency/markets/selt", "CETS")
  else if name = "currency" then some ("engines/currency/markets/selt", "CETS")
  else if name = "forts" then some ("engines/futures/markets/forts", "RFUD")
  else if name = "FO" then some ("engines/futures/markets/forts", "RFUD")
  else if name = "futures" then some ("engines/futures/markets/forts", "RFUD")
  else Option.none

def AVAILABLE : List String := ["index", "shares", "selt", "forts"]

inductive MarketNewResult
  | attributeError        -- `path.split('/')` with `path = None`
  | notImplementedError   -- "Market {name} is not supported"
  | made (name path : String) (boardid : Option String)
deriving DecidableEq

/-- Python `str.split(sep)` / `re.split` with a single-character class: split on
each separator character, keeping empty pieces. -/
def pySplit (p : Char → Bool) : List Char → List (List Char)
  | [] => [[]]
  | c :: rest =>
    if p c then [] :: pySplit p rest
    else
      match pySplit p rest with
      | t :: ts => (c :: t) :: ts
      | [] => [[c]]

/-- `path.split('/')[-1]`. -/
def lastSegment (path : String) : String :=
  String.mk ((pySplit (fun c => c = '/') path.data).getLastD [])

/-- `boardid or default` for optional strings (`None` and `""` are falsy). -/
def pyOrStr (x : Option String) (dflt : Option String) : Option String :=
  match x with
  | Option.none => dflt
  | some s => if s = "" then dflt else some s

/-- The name/path/board resolution of `Market.__new__(cls, name, boardid)`. -/
def market_new (name : String) (boardid : Option String) : MarketNewResult :=
  if ¬ name.data.contains '/' then
    match ALIASES name with
    | Option.none => .attributeError
    | some (path, default_boardid) =>
      let boardid := pyOrStr boardid (some default_boardid)
      let name := lastSegment path
      if name ∈ AVAILABLE then .made name path boardid else .notImplementedError
  else
    let path := name
    let name := lastSegment name
    if name ∈ AVAILABLE then .made name path boardid else .notImplementedError

/-! ## `src/moexalgo/tickers.py` — `_resolve_ticker` (lines 399-417)

The reference-data endpoint `securities/{secid}` is abstracted as `lookup`,
returning the rows of the `boards` section (`None` models the `KeyError` the
deserializer raises for an unknown security, which `_resolve_ticker` turns
into a `None` return).  `re.split("[^a-zA-Z0-9-]", secid)` splits the symbol
on every character that is not alphanumeric and not `'-'`, keeping empty
pieces, exactly as `re.split` does. -/

structure BoardRow where
  boardid : String
  is_primary : Bool
  market : String
  engine : String
deriving DecidableEq

structure ResolvedTicker where
  secid : String
  boardid : String
  market : String
  engine : String
deriving DecidableEq

inductive ResolveOutcome
  | valueError            -- raise ValueError("Wrong `boardid`")
  | resolvedNone          -- the function returns None
  | resolved (r : ResolvedTicker)
deriving DecidableEq

/-- A separator for `re.split("[^a-zA-Z0-9-]", ...)`. -/
def tickerSeparator (c : Char) : Bool := ¬ (c.isAlphanum ∨ c = '-')

/-- `_resolve_ticker(secid, boardid)`. -/
def resolve_ticker (lookup : String → Option (List BoardRow))
    (secid0 : String) (boardid0 : Option String) : ResolveOutcome :=
  let sb : String × Option String :=
    match boardid0 with
    | Option.none =>
      match (pySplit tickerSeparator secid0.data).map String.mk with
      | [] => (secid0, Option.none)  -- unreachable: pySplit never returns []
      | s :: args => (s, args.head?)
    | some b => (secid0, some b)
  let secid := sb.1
  let boardid := sb.2
  match lookup secid with
  | Option.none => .resolvedNone
  | some boards =>
    match boards.filter (fun b => b.is_primary) with
    | [] => .resolvedNone
    | board_info :: _ =>
      match boardid with
      | some b =>
        if b ≠ "" then
          -- `if boardid: if boardid != board_info["boardid"]: raise ValueError`
          if b ≠ board_info.boardid then .valueError
          else .resolved ⟨secid, board_info.boardid, board_info.market, board_info.engine⟩
        else .resolved ⟨secid, board_info.boardid, board_info.market, board_info.engine⟩
      | Option.none =>
        .resolved ⟨secid, board_info.boardid, board_info.market, board_info.engine⟩

/-! ## `src/moexalgo/tools/resample.py` — `_tradestats_calculator` (lines 103-163)

One input record of the trade-statistics family, restricted to the price and
price-time fields the OHLC logic reads and writes (`pr_open`, `pr_high`,
`pr_low`, `pr_close`, their `sec_pr_*` second-of-occurrence companions, and the
`offset` key the `Resampler` added: the record's begin time in seconds from the
window begin).  Records without the optional `im` / `oi_*` keys are modelled.
The summed (`vol`, `val`, ...) and meaned (`pr_std`) fields and the derived
fields recomputed after the loop (`pr_change`, `disb`, `pr_vwap*`) neither read
nor write any of these fields, so the fold below determines the OHLC output of
the calculator.  The values are already numeric, on which `normalize_int` /
`normalize_float` act as the identity. -/

structure TradeStat where
  pr_open : Rat
  pr_high : Rat
  pr_low : Rat
  pr_close : Rat
  sec_pr_open : Rat
  sec_pr_high : Rat
  sec_pr_low : Rat
  sec_pr_close : Rat
  offset : Rat
deriving DecidableEq, Repr

/-- Lines 125-132 of the loop body, executed for every `N` (the `result` and
`tradestat` arguments are the same dict at `N = 0`). -/
def tradestatsStep (result t : TradeStat) : TradeStat :=
  let r1 := if t.pr_high > result.pr_high
    then { result with pr_high := t.pr_high, sec_pr_high := t.offset + t.sec_pr_high }
    else result
  let r2 := if t.pr_low < r1.pr_low
    then { r1 with pr_low := t.offset + t.pr_low, sec_pr_low := t.offset + t.sec_pr_low }
    else r1
  { r2 with pr_close := t.pr_close, sec_pr_close := t.offset + t.sec_pr_close }

/-- The `N = 0` iteration: `result = tradestat` makes the two names aliases of
one dict; lines 120-123 shift the `sec_pr_*` fields by `offset`, then lines
125-132 run on the aliased dict (both comparisons see equal values;
`sec_pr_close` has `offset` added a second time through the alias). -/
def tradestatsFirstStep (x : TradeStat) : TradeStat :=
  let r := { x with
    sec_pr_open := x.offset + x.sec_pr_open,
    sec_pr_high := x.offset + x.sec_pr_high,
    sec_pr_low := x.offset + x.sec_pr_low,
    sec_pr_close := x.offset + x.sec_pr_close }
  tradestatsStep r r

/-- The OHLC part of `_tradestats_calculator(items, lotsize, decimals)`:
the `for N in range(len(items))` loop.  `none` models the `TypeError` the
Python code would hit on an empty `items` (the `Resampler` only calls it with
a non-empty accumulator). -/
def tradestats_ohlc : List TradeStat → Option TradeStat
  | [] => Option.none
  | x :: rest => some (rest.foldl tradestatsStep (tradestatsFirstStep x))


/-! ## Supporting lemmas about the date/time model -/

theorem digitVal_digitChar {n : Nat} (h : n < 10) : digitVal (Nat.digitChar n) = some n := by
  interval_cases n <;> decide

theorem parseDateChars_isoChars (d : MDate) (h : d.Valid) :
    parseDateChars d.isoChars = some d := by
  obtain ⟨y, m, dd⟩ := d
  unfold MDate.Valid at h
  dsimp only at h
  obtain ⟨h1, h2, h3, h4, h5, h6⟩ := h
  have hdm : daysInMonth y m ≤ 31 := by
    unfold daysInMonth
    repeat' split
    all_goals omega
  have e1 := digitVal_digitChar (n := y / 1000) (by omega)
  have e2 := digitVal_digitChar (n := y / 100 % 10) (by omega)
  have e3 := digitVal_digitChar (n := y / 10 % 10) (by omega)
  have e4 := digitVal_digitChar (n := y % 10) (by omega)
  have e5 := digitVal_digitChar (n := m / 10) (by omega)
  have e6 := digitVal_digitChar (n := m % 10) (by omega)
  have e7 := digitVal_digitChar (n := dd / 10) (by omega)
  have e8 := digitVal_digitChar (n := dd % 10) (by omega)
  have ey : ((y / 1000 * 10 + y / 100 % 10) * 10 + y / 10 % 10) * 10 + y % 10 = y := by omega
  have em : m / 10 * 10 + m % 10 = m := by omega
  have ed : dd / 10 * 10 + dd % 10 = dd := by omega
  simp only [MDate.isoChars, pad4, pad2, List.cons_append, List.nil_append, parseDateChars,
    e1, e2, e3, e4, e5, e6, e7, e8, Option.some_bind, ey, em, ed]
  simp [h1, h2, h3, h4, h5, h6]

theorem parseTimeChars_isoChars (t : MTime) (h : t.Valid) :
    parseTimeChars t.isoChars = some t := by
  obtain ⟨hh, mm, ss⟩ := t
  unfold MTime.Valid at h
  dsimp only at h
  obtain ⟨h1, h2, h3⟩ := h
  have e1 := digitVal_digitChar (n := hh / 10) (by omega)
  have e2 := digitVal_digitChar (n := hh % 10) (by omega)
  have e3 := digitVal_digitChar (n := mm / 10) (by omega)
  have e4 := digitVal_digitChar (n := mm % 10) (by omega)
  have e5 := digitVal_digitChar (n := ss / 10) (by omega)
  have e6 := digitVal_digitChar (n := ss % 10) (by omega)
  have eh : hh / 10 * 10 + hh % 10 = hh := by omega
  have em : mm / 10 * 10 + mm % 10 = mm := by omega
  have es : ss / 10 * 10 + ss % 10 = ss := by omega
  simp only [MTime.isoChars, pad2, List.cons_append, List.nil_append, parseTimeChars,
    e1, e2, e3, e4, e5, e6, Option.some_bind, eh, em, es]
  simp [h1, h2, h3]

theorem isoChars_length (d : MDate) : d.isoChars.length = 10 := by
  simp [MDate.isoChars, pad4, pad2]

theorem timeIsoChars_length (t : MTime) : t.isoChars.length = 8 := by
  simp [MTime.isoChars, pad2]

theorem parseDateTimeChars_isoChars (dt : MDateTime) (hd : dt.date.Valid) (ht : dt.time.Valid) :
    parseDateTimeChars dt.isoChars = some dt := by
  have hlen : dt.isoChars.length = 19 := by
    simp [MDateTime.isoChars, isoChars_length, timeIsoChars_length]
  have htake : dt.isoChars.take 10 = dt.date.isoChars := by
    rw [MDateTime.isoChars, ← isoChars_length dt.date]
    exact List.take_left _ _
  have hdrop : dt.isoChars.drop 11 = dt.time.isoChars := by
    have : dt.isoChars = (dt.date.isoChars ++ ['T']) ++ dt.time.isoChars := by
      simp [MDateTime.isoChars]
    rw [this]
    have h11 : (dt.date.isoChars ++ ['T']).length = 11 := by simp [isoChars_length]
    rw [← h11]
    exact List.drop_left _ _
  rw [parseDateTimeChars, if_pos hlen, htake, hdrop,
    parseDateChars_isoChars _ hd, parseTimeChars_isoChars _ ht]

theorem dropWhile_eq_self_of_forall {p : Char → Bool} :
    ∀ l : List Char, (∀ c ∈ l, p c = false) → l.dropWhile p = l
  | [], _ => rfl
  | c :: l, h => by simp [List.dropWhile_cons, h c (by simp)]

theorem pyStripChars_eq_self (l : List Char) (h : ∀ c ∈ l, c.isWhitespace = false) :
    pyStripChars l = l := by
  unfold pyStripChars
  rw [dropWhile_eq_self_of_forall l h,
    dropWhile_eq_self_of_forall l.reverse (fun c hc => h c (List.mem_reverse.mp hc)),
    List.reverse_reverse]

theorem digitChar_not_ws {n : Nat} (h : n < 10) : (Nat.digitChar n).isWhitespace = false := by
  interval_cases n <;> decide

theorem isoChars_not_ws (d : MDate) (h : d.Valid) :
    ∀ c ∈ d.isoChars, c.isWhitespace = false := by
  obtain ⟨y, m, dd⟩ := d
  unfold MDate.Valid at h
  dsimp only at h
  obtain ⟨h1, h2, h3, h4, h5, h6⟩ := h
  have hdm : daysInMonth y m ≤ 31 := by
    unfold daysInMonth
    repeat' split
    all_goals omega
  intro c hc
  simp only [MDate.isoChars, pad4, pad2, List.cons_append, List.nil_append, List.mem_cons,
    List.not_mem_nil, or_false] at hc
  rcases hc with h' | h' | h' | h' | h' | h' | h' | h' | h' | h' <;> subst h' <;>
    first
      | exact digitChar_not_ws (by omega)
      | decide

theorem timeIsoChars_not_ws (t : MTime) (h : t.Valid) :
    ∀ c ∈ t.isoChars, c.isWhitespace = false := by
  obtain ⟨hh, mm, ss⟩ := t
  unfold MTime.Valid at h
  dsimp only at h
  obtain ⟨h1, h2, h3⟩ := h
  intro c hc
  simp only [MTime.isoChars, pad2, List.cons_append, List.nil_append, List.mem_cons,
    List.not_mem_nil, or_false] at hc
  rcases hc with h' | h' | h' | h' | h' | h' | h' | h' <;> subst h' <;>
    first
      | exact digitChar_not_ws (by omega)
      | decide

theorem dtIsoChars_not_ws (dt : MDateTime) (hd : dt.date.Valid) (ht : dt.time.Valid) :
    ∀ c ∈ dt.isoChars, c.isWhitespace = false := by
  intro c hc
  simp only [MDateTime.isoChars, List.mem_append, List.mem_cons] at hc
  rcases hc with h' | h' | h'
  · exact isoChars_not_ws dt.date hd c h'
  · subst h'; decide
  · exact timeIsoChars_not_ws dt.time ht c h'

/-! ## Supporting lemmas about the pagination loop -/

theorem yieldPage_nonpos {α : Type} (offset limit : Int) (hl : limit ≤ 0) :
    ∀ (page : List α) (start : Int),
      yieldPage offset limit page start = (page, start + page.length, false)
  | [], start => by simp [yieldPage]
  | b :: bs, start => by
    rw [yieldPage]
    rw [if_neg (by omega : ¬ (start + 1 - offset ≥ limit ∧ limit > 0))]
    rw [yieldPage_nonpos offset limit hl bs (start + 1)]
    simp
    omega

/-! ## Claim theorems -/

/-- **C1** (counterexample): a deterministic transport holding N = 2 records
served in pages of size P = 1; `data_gen` with `offset = 0`, `limit = -1`
yields only the single record of the first page, not all 2 records. -/
theorem data_gen_unbounded_cex :
    data_gen (pagedTransport ([10, 20] : List Int) 1) 0 (-1) 5 = some [10] ∧
    some [10] ≠ some ([10, 20] : List Int) := by
  refine ⟨rfl, by decide⟩

/-- **C1** (amended): for every deterministic transport, `data_gen` called with
`limit = -1` yields exactly the records of the first fetched page, in order
(so all `N` records are produced only when the page size is at least `N`): the
`if limit < 0: return` after the first non-empty page ends the generator. -/
theorem data_gen_unbounded_yields_first_page {α : Type} (fetch : Int → List α)
    (offset : Int) (fuel : Nat) (hf : 0 < fuel) :
    data_gen fetch offset (-1) fuel = some (fetch offset) := by
  obtain ⟨k, rfl⟩ : ∃ k, fuel = k + 1 := ⟨fuel - 1, by omega⟩
  rcases hp : fetch offset with _ | ⟨a, l⟩
  · simp [data_gen, data_gen_aux, hp]
  · simp [data_gen, data_gen_aux, hp,
      yieldPage_nonpos offset (-1) (by omega : (-1 : Int) ≤ 0)]

/-- Witness for `data_gen_unbounded_yields_first_page` at a concrete transport. -/
theorem data_gen_unbounded_yields_first_page_witness :
    0 < 1 ∧ data_gen (fun _ => ([7] : List Nat)) 0 (-1) 1 = some [7] :=
  ⟨Nat.one_pos, data_gen_unbounded_yields_first_page (fun _ => [7]) 0 1 Nat.one_pos⟩

/-- **C5** (counterexample): with `limit = -1` the offset-clamping line is
skipped, so `calc_offset_limit(60000, -1)` returns offset `60000`, outside
`[0, 50000)`, contradicting "the offset bound holds for every value of limit,
including -1". -/
theorem calc_offset_limit_unclamped_cex :
    calc_offset_limit (some 60000) (some (-1)) = (60000, -1) ∧
    ¬ ((60000 : Int) < 50000) := by
  refine ⟨rfl, by decide⟩

/-- **C5** (amended): `calc_offset_limit` returns `limit = -1` unchanged and
then also returns the offset merely defaulted (`None`/`0` become `0`) but not
clamped; for every other `limit` the returned offset is clamped into
`[0, 50000)` (defaulting to `0` when absent) and the returned limit defaults to
`10,000` and is clamped into `[1, 50000]`. -/
theorem calc_offset_limit_amended (o l : Option Int) :
    (l = some (-1) → calc_offset_limit o l = (pyOrInt o 0, -1)) ∧
    (l ≠ some (-1) →
      0 ≤ (calc_offset_limit o l).1 ∧ (calc_offset_limit o l).1 < 50000 ∧
      1 ≤ (calc_offset_limit o l).2 ∧ (calc_offset_limit o l).2 ≤ 50000 ∧
      (o = Option.none → (calc_offset_limit o l).1 = 0) ∧
      (l = Option.none → (calc_offset_limit o l).2 = 10000)) := by
  by_cases hl : l = some (-1)
  · subst hl
    exact ⟨fun _ => by simp [calc_offset_limit], fun h => absurd rfl h⟩
  · refine ⟨fun h => absurd h hl, fun _ => ?_⟩
    simp only [calc_offset_limit, if_pos hl, ne_eq]
    rcases o with _ | ov <;> rcases l with _ | lv <;>
      simp [pyOrInt] <;> split_ifs <;> omega

/-- Witness for `calc_offset_limit_amended` at concrete inputs. -/
theorem calc_offset_limit_amended_witness :
    calc_offset_limit (some 7) (some (-1)) = (7, -1) ∧
    0 ≤ (calc_offset_limit (some 60000) (some 99999)).1 ∧
    (calc_offset_limit (some 60000) (some 99999)).1 < 50000 := by
  have h1 := (calc_offset_limit_amended (some 7) (some (-1))).1 rfl
  have h2 := (calc_offset_limit_amended (some 60000) (some 99999)).2 (by decide)
  exact ⟨h1, h2.1, h2.2.1⟩

/-- **C6** (counterexample): for an authenticated client the computed delay is
the fixed `0.2` seconds, not zero. -/
theorem throttle_authorized_delay_cex :
    (get_objects_throttle true 0 0 0).1 = 1 / 5 ∧ ((1 : Rat) / 5) ≠ 0 := by
  refine ⟨rfl, by norm_num⟩

/-- **C6** (amended): before every transport call the delay is computed from
the watermark: when the client is unauthenticated and the watermark lies in the
future the delay is exactly `watermark - now`, while an authenticated client
(or a watermark already passed) gets the fixed `0.2` second delay; the delay is
always positive (so `sleep(timeout)` runs for exactly this long) and the
watermark is advanced to the second `time()` reading plus the fixed `0.1`
second minimum spacing plus the delay waited. -/
theorem throttle_watermark_amended (auth : Bool) (now now2 wm : Rat) :
    0 < (get_objects_throttle auth now now2 wm).1 ∧
    (get_objects_throttle auth now now2 wm).2
      = now2 + 1 / 10 + (get_objects_throttle auth now now2 wm).1 ∧
    (auth = false → now < wm → (get_objects_throttle auth now now2 wm).1 = wm - now) ∧
    ((auth = true ∨ wm ≤ now) → (get_objects_throttle auth now now2 wm).1 = 1 / 5) := by
  unfold get_objects_throttle
  by_cases h : auth = true ∨ wm - now ≤ 0
  · simp only [if_pos h]
    refine ⟨by norm_num, trivial, ?_, fun _ => trivial⟩
    intro ha hw
    rcases h with h | h
    · rw [ha] at h; exact absurd h (by simp)
    · linarith
  · simp only [if_neg h]
    push_neg at h
    obtain ⟨h1, h2⟩ := h
    refine ⟨by linarith, trivial, fun _ _ => trivial, ?_⟩
    rintro (hc | hc)
    · exact absurd hc h1
    · linarith

/-- Witness for `throttle_watermark_amended` at a concrete state. -/
theorem throttle_watermark_amended_witness :
    (get_objects_throttle true 0 0 0).1 = 1 / 5 :=
  (throttle_watermark_amended true 0 0 0).2.2.2 (Or.inl rfl)

/-- **C7** (code-bug evaluation): `Market.__new__` resolves an unknown plain
market name through `_ALIASES.get(name, (None, None))` and then calls
`path.split('/')` on `None`, raising `AttributeError` instead of the
`NotImplementedError` its own docstring promises; `NotImplementedError` is only
reached for a path-shaped name whose last segment is unknown.  The alias
`"EQ"` does resolve to the equities path with default board `TQBR`. -/
theorem market_new_unknown_alias_eval :
    market_new "bonds" Option.none = .attributeError ∧
    MarketNewResult.attributeError ≠ MarketNewResult.notImplementedError ∧
    market_new "engines/stock/markets/bonds" Option.none = .notImplementedError ∧
    market_new "EQ" Option.none
      = .made "shares" "engines/stock/markets/shares" (some "TQBR") := by
  refine ⟨rfl, by decide, rfl, rfl⟩

/-- **C10**: attribute access on a `DCls` record, for a name not starting with
an underscore: a present field returns its stored value — including a stored
null — and an absent field raises `AttributeError`; the two outcomes are
distinguishable. -/
theorem dcls_getattr_spec (fields : List (String × Option Int)) (name : String)
    (hn : startsWithUnderscore name = false) :
    (∀ v, fields.lookup name = some v → dclsGetattr fields name = .ok v) ∧
    (fields.lookup name = Option.none → dclsGetattr fields name = .attributeError) ∧
    (∀ v : Option Int, AttrResult.ok v ≠ .attributeError) := by
  refine ⟨fun v hv => ?_, fun hv => ?_, fun v h => by cases h⟩
  · simp [dclsGetattr, hn, hv]
  · simp [dclsGetattr, hn, hv]

/-- Witness for `dcls_getattr_spec`: a stored null is returned as a value and
is distinguishable from the absent-field `AttributeError`. -/
theorem dcls_getattr_spec_witness :
    dclsGetattr [("vol", (Option.none : Option Int))] "vol" = .ok Option.none ∧
    dclsGetattr ([] : List (String × Option Int)) "vol" = .attributeError := by
  have h1 := dcls_getattr_spec [("vol", (Option.none : Option Int))] "vol" rfl
  have h2 := dcls_getattr_spec ([] : List (String × Option Int)) "vol" rfl
  exact ⟨h1.1 Option.none rfl, h2.2.1 rfl⟩

/-- **C2** (code-bug evaluation): two 5-minute trade-statistics records
aggregated into one window, the second beginning 300 seconds after the window
start with the lower low price (9 < 10).  Open, close and high are carried
correctly, but line 129 of `resample.py` adds the record's time `offset` to the
price: the output low is `300 + 9 = 309`, not the window minimum `9`. -/
theorem tradestats_low_bug_eval :
    (tradestats_ohlc [⟨10, 12, 10, 11, 0, 100, 0, 299, 0⟩,
        ⟨11, 11, 9, 9, 30, 60, 90, 120, 300⟩]).map TradeStat.pr_low = some 309 ∧
    min (10 : Rat) 9 = 9 ∧
    (309 : Rat) ≠ 9 ∧
    (tradestats_ohlc [⟨10, 12, 10, 11, 0, 100, 0, 299, 0⟩,
        ⟨11, 11, 9, 9, 30, 60, 90, 120, 300⟩]).map TradeStat.pr_open = some 10 ∧
    (tradestats_ohlc [⟨10, 12, 10, 11, 0, 100, 0, 299, 0⟩,
        ⟨11, 11, 9, 9, 30, 60, 90, 120, 300⟩]).map TradeStat.pr_close = some 9 ∧
    (tradestats_ohlc [⟨10, 12, 10, 11, 0, 100, 0, 299, 0⟩,
        ⟨11, 11, 9, 9, 30, 60, 90, 120, 300⟩]).map TradeStat.pr_high
      = some (max (12 : Rat) 11) := by
  have hres : tradestats_ohlc [⟨10, 12, 10, 11, 0, 100, 0, 299, 0⟩,
      ⟨11, 11, 9, 9, 30, 60, 90, 120, 300⟩] = some ⟨10, 12, 309, 9, 0, 100, 390, 420, 0⟩ := by
    norm_num [tradestats_ohlc, tradestatsFirstStep, tradestatsStep]
  refine ⟨by rw [hres]; rfl, by norm_num, by norm_num, by rw [hres]; rfl,
    by rw [hres]; rfl, by rw [hres]; norm_num⟩

/-! ## Supporting lemma for the symbol splitter -/

theorem pySplit_eq_single {p : Char → Bool} :
    ∀ l : List Char, (∀ c ∈ l, p c = false) → pySplit p l = [l]
  | [], _ => rfl
  | c :: rest, h => by
    rw [pySplit, if_neg (by simp [h c (by simp)])]
    rw [pySplit_eq_single rest (fun x hx => h x (by simp [hx]))]

/-- **C4** (counterexample): a symbol listed on two boards, primary `TQBR` and
non-primary `SMAL`; resolving with the explicit board `SMAL` raises the
validation error even though `SMAL` appears in the symbol's board listing,
because `_resolve_ticker` only compares against the primary row. -/
theorem resolve_ticker_listed_board_cex :
    resolve_ticker
        (fun s => if s = "SBER" then
            some [⟨"TQBR", true, "shares", "stock"⟩, ⟨"SMAL", false, "shares", "stock"⟩]
          else Option.none)
        "SBER" (some "SMAL") = .valueError ∧
    "SMAL" ∈ ([⟨"TQBR", true, "shares", "stock"⟩,
        ⟨"SMAL", false, "shares", "stock"⟩] : List BoardRow).map BoardRow.boardid := by
  refine ⟨rfl, by decide⟩

/-- **C4** (amended): `_resolve_ticker` always selects the first listing row
flagged primary; an explicit non-empty board raises the validation error
exactly when it differs from that primary row's board id (whether or not it
appears elsewhere in the listing), and resolving without a board selects the
primary row. -/
theorem resolve_ticker_amended (lookup : String → Option (List BoardRow))
    (secid b : String) (boards : List BoardRow) (p : BoardRow) (rest : List BoardRow)
    (hsec : ∀ c ∈ secid.data, tickerSeparator c = false)
    (hl : lookup secid = some boards)
    (hp : boards.filter (fun r => r.is_primary) = p :: rest)
    (hb : b ≠ "") :
    (resolve_ticker lookup secid (some b)
        = if b = p.boardid
          then .resolved ⟨secid, p.boardid, p.market, p.engine⟩
          else .valueError) ∧
    resolve_ticker lookup secid Option.none
        = .resolved ⟨secid, p.boardid, p.market, p.engine⟩ := by
  have hmk : String.mk secid.data = secid := rfl
  constructor
  · simp only [resolve_ticker, hl, hp, if_pos hb]
    by_cases hbe : b = p.boardid
    · simp [hbe]
    · simp [hbe]
  · simp only [resolve_ticker, pySplit_eq_single secid.data hsec, List.map_cons, List.map_nil,
      hmk, List.head?, hl, hp]

/-- Witness for `resolve_ticker_amended`: the primary board resolves, with and
without being supplied explicitly. -/
theorem resolve_ticker_amended_witness :
    resolve_ticker
        (fun s => if s = "SBER" then some [⟨"TQBR", true, "shares", "stock"⟩] else Option.none)
        "SBER" (some "TQBR") = .resolved ⟨"SBER", "TQBR", "shares", "stock"⟩ ∧
    resolve_ticker
        (fun s => if s = "SBER" then some [⟨"TQBR", true, "shares", "stock"⟩] else Option.none)
        "SBER" Option.none = .resolved ⟨"SBER", "TQBR", "shares", "stock"⟩ := by
  have h := resolve_ticker_amended
    (fun s => if s = "SBER" then some [⟨"TQBR", true, "shares", "stock"⟩] else Option.none)
    "SBER" "TQBR" [⟨"TQBR", true, "shares", "stock"⟩] ⟨"TQBR", true, "shares", "stock"⟩ []
    (by decide) rfl rfl (by decide)
  refine ⟨?_, h.2⟩
  rw [h.1, if_pos rfl]

/-! ## Supporting lemmas about formatted date strings -/

theorem dateFromIso_isoformat (d : MDate) (h : d.Valid) : dateFromIso d.isoformat = some d :=
  parseDateChars_isoChars d h

theorem timeFromIso_isoformat (t : MTime) (h : t.Valid) : timeFromIso t.isoformat = some t :=
  parseTimeChars_isoChars t h

theorem dateTimeFromIso_isoformat (dt : MDateTime) (hd : dt.date.Valid) (ht : dt.time.Valid) :
    dateTimeFromIso dt.isoformat = some dt :=
  parseDateTimeChars_isoChars dt hd ht

theorem isoformat_ne_empty (d : MDate) : d.isoformat ≠ "" := by
  have h10 : (d.isoformat).data.length = 10 := isoChars_length d
  intro he
  rw [he] at h10
  exact absurd h10 (by decide)

theorem isoformat_ne_today (d : MDate) : d.isoformat ≠ "today" := by
  have h10 : (d.isoformat).data.length = 10 := isoChars_length d
  intro he
  rw [he] at h10
  exact absurd h10 (by decide)

theorem isoformat_ne_sentinel (d : MDate) (h : d.Valid) : d.isoformat ≠ "0000-00-00" := by
  intro he
  have hp : dateFromIso d.isoformat = some d := dateFromIso_isoformat d h
  rw [he] at hp
  have hnone : dateFromIso ("0000-00-00" : String) = Option.none := by decide
  rw [hnone] at hp
  exact Option.noConfusion hp

theorem pyStrip_isoformat (d : MDate) (h : d.Valid) : pyStrip d.isoformat = d.isoformat := by
  show String.mk (pyStripChars d.isoChars) = d.isoformat
  rw [pyStripChars_eq_self d.isoChars (isoChars_not_ws d h)]
  rfl

theorem pyStrip_time_isoformat (t : MTime) (h : t.Valid) : pyStrip t.isoformat = t.isoformat := by
  show String.mk (pyStripChars t.isoChars) = t.isoformat
  rw [pyStripChars_eq_self t.isoChars (timeIsoChars_not_ws t h)]
  rfl

theorem pyStrip_dt_isoformat (dt : MDateTime) (hd : dt.date.Valid) (ht : dt.time.Valid) :
    pyStrip dt.isoformat = dt.isoformat := by
  show String.mk (pyStripChars dt.isoChars) = dt.isoformat
  rw [pyStripChars_eq_self dt.isoChars (dtIsoChars_not_ws dt hd ht)]
  rfl

/-- **C3** (counterexample): with `from_date` set to a date and `till_date`
absent (`None`), the claim says `till_date` defaults to `from_date` and the
call succeeds, but `prepare_from_till_dates` raises `ISSTickerParamException`
whenever *either* bound is `None`. -/
theorem prepare_from_till_dates_none_cex :
    prepare_from_till_dates ⟨2026, 10, 12⟩ (.pyDate ⟨2024, 1, 2⟩) .pyNone
      = .error .tickerParam ∧
    (Except.error DatesError.tickerParam
      ≠ (.ok ("2024-01-02", "2024-01-02") : Except DatesError (String × String))) :=
  ⟨rfl, fun h => Except.noConfusion h⟩

/-- **C3** (amended): `prepare_from_till_dates` accepts ISO strings or native
dates for either bound and the literal `"today"` only for `till_date`; it
raises the missing-parameter error (`ISSTickerParamException`) whenever either
bound is `None` (so an absent `till_date` never defaults to `from_date`);
given both bounds it raises the invalid-range error (`ISSDateParamException`)
exactly when `from_date > till_date`; and `"today"` as `from_date` is a
`ValueError` from `date.fromisoformat`. -/
theorem prepare_from_till_dates_amended (today d1 d2 : MDate) (t : DateArg)
    (h1 : d1.Valid) :
    prepare_from_till_dates today .pyNone t = .error .tickerParam ∧
    prepare_from_till_dates today (.pyDate d1) .pyNone = .error .tickerParam ∧
    prepare_from_till_dates today (.pyDate d1) (.pyDate d2)
      = (if MDate.Lt d2 d1 then .error .dateParam else .ok (d1.isoformat, d2.isoformat)) ∧
    prepare_from_till_dates today (.pyStr d1.isoformat) (.pyStr "today")
      = (if MDate.Lt today d1 then .error .dateParam else .ok (d1.isoformat, today.isoformat)) ∧
    prepare_from_till_dates today (.pyStr "today") (.pyDate d2) = .error .valueError := by
  refine ⟨?_, rfl, rfl, ?_, rfl⟩
  · cases t <;> rfl
  · simp [prepare_from_till_dates, dateFromIso_isoformat d1 h1]

/-- Witness for `prepare_from_till_dates_amended` at concrete dates. -/
theorem prepare_from_till_dates_amended_witness :
    prepare_from_till_dates ⟨2026, 10, 12⟩ (.pyDate ⟨2024, 1, 2⟩) .pyNone
      = .error .tickerParam :=
  (prepare_from_till_dates_amended ⟨2026, 10, 12⟩ ⟨2024, 1, 2⟩ ⟨2024, 1, 5⟩ .pyNone
    (by decide)).2.1

/-- **C8**: for every pair of set, valid date bounds — given as native dates or
as their canonical ISO strings — `prepare_from_till_dates` with
`from_date <= till_date` returns the two dates unchanged as canonical ISO
strings, and with `from_date > till_date` raises `ISSDateParamException` (the
invalid-range error). -/
theorem prepare_from_till_dates_canonical (today d1 d2 : MDate)
    (h1 : d1.Valid) (h2 : d2.Valid) :
    (¬ MDate.Lt d2 d1 →
      prepare_from_till_dates today (.pyDate d1) (.pyDate d2)
        = .ok (d1.isoformat, d2.isoformat) ∧
      prepare_from_till_dates today (.pyStr d1.isoformat) (.pyStr d2.isoformat)
        = .ok (d1.isoformat, d2.isoformat)) ∧
    (MDate.Lt d2 d1 →
      prepare_from_till_dates today (.pyDate d1) (.pyDate d2) = .error .dateParam ∧
      prepare_from_till_dates today (.pyStr d1.isoformat) (.pyStr d2.isoformat)
        = .error .dateParam) := by
  have hnat : prepare_from_till_dates today (.pyDate d1) (.pyDate d2)
      = if MDate.Lt d2 d1 then .error .dateParam else .ok (d1.isoformat, d2.isoformat) := rfl
  have hstr : prepare_from_till_dates today (.pyStr d1.isoformat) (.pyStr d2.isoformat)
      = if MDate.Lt d2 d1 then .error .dateParam else .ok (d1.isoformat, d2.isoformat) := by
    simp only [prepare_from_till_dates, dateFromIso_isoformat d1 h1, dateFromIso_isoformat d2 h2,
      if_neg (isoformat_ne_empty d2), if_neg (isoformat_ne_today d2)]
  constructor
  · intro hn
    rw [hnat, hstr, if_neg hn]
    exact ⟨rfl, rfl⟩
  · intro hy
    rw [hnat, hstr, if_pos hy]
    exact ⟨rfl, rfl⟩

/-- Witness for `prepare_from_till_dates_canonical` at concrete dates. -/
theorem prepare_from_till_dates_canonical_witness :
    prepare_from_till_dates ⟨2026, 1, 1⟩ (.pyDate ⟨2024, 1, 2⟩) (.pyDate ⟨2024, 1, 5⟩)
      = .ok ("2024-01-02", "2024-01-05") := by
  have h := ((prepare_from_till_dates_canonical ⟨2026, 1, 1⟩ ⟨2024, 1, 2⟩ ⟨2024, 1, 5⟩
    (by decide) (by decide)).1 (by decide)).1
  have hx : (⟨2024, 1, 2⟩ : MDate).isoformat = "2024-01-02" := by decide
  have hy : (⟨2024, 1, 5⟩ : MDate).isoformat = "2024-01-05" := by decide
  rw [← hx, ← hy]
  exact h

/-- **C9** (counterexample): under the raw-string fallback tag a null cell is
not passed through as null: the fallback conversion is Python's `str`, and
`str(None)` is the string `"None"`. -/
theorem wire_fallback_null_cex :
    item_normalizer_conv "string" Cell.cNull = some (.vStr "None") ∧
    some (TypedValue.vStr "None") ≠ some TypedValue.vNull :=
  ⟨rfl, by decide⟩

/-- **C9** (amended): encoding a typed value into its wire cell and decoding it
back with the declared type tag yields an equal value for every supported tag
(`int32`, `int64`, `double`, `date`, `datetime`, `time`, raw-string fallback)
on non-null values; the `"0000-00-00"` sentinel of the `date` tag decodes to
null; and a null cell passes through as null under the six typed tags (under
the raw-string fallback it is stringified to `"None"` instead). -/
theorem wire_roundtrip_amended (n : Int) (q : Rat) (d : MDate) (t : MTime) (dt : MDateTime)
    (s : String) (hd : d.Valid) (ht : t.Valid) (hdd : dt.date.Valid) (hdt : dt.time.Valid) :
    item_normalizer_conv "int32" (encodeCell (.vInt n)) = some (.vInt n) ∧
    item_normalizer_conv "int64" (encodeCell (.vInt n)) = some (.vInt n) ∧
    item_normalizer_conv "double" (encodeCell (.vFloat q)) = some (.vFloat q) ∧
    item_normalizer_conv "date" (encodeCell (.vDate d)) = some (.vDate d) ∧
    item_normalizer_conv "datetime" (encodeCell (.vDateTime dt)) = some (.vDateTime dt) ∧
    item_normalizer_conv "time" (encodeCell (.vTime t)) = some (.vTime t) ∧
    item_normalizer_conv "string" (encodeCell (.vStr s)) = some (.vStr s) ∧
    item_normalizer_conv "date" (.cStr "0000-00-00") = some .vNull ∧
    item_normalizer_conv "int32" .cNull = some .vNull ∧
    item_normalizer_conv "int64" .cNull = some .vNull ∧
    item_normalizer_conv "double" .cNull = some .vNull ∧
    item_normalizer_conv "date" .cNull = some .vNull ∧
    item_normalizer_conv "datetime" .cNull = some .vNull ∧
    item_normalizer_conv "time" .cNull = some .vNull := by
  refine ⟨rfl, rfl, rfl, ?_, ?_, ?_, rfl, rfl, rfl, rfl, rfl, rfl, rfl, rfl⟩
  · show (if d.isoformat = "0000-00-00" then some TypedValue.vNull
        else (dateFromIso (pyStrip d.isoformat)).map TypedValue.vDate) = some (.vDate d)
    rw [if_neg (isoformat_ne_sentinel d hd), pyStrip_isoformat d hd, dateFromIso_isoformat d hd]
    rfl
  · show (dateTimeFromIso (pyStrip dt.isoformat)).map TypedValue.vDateTime
        = some (.vDateTime dt)
    rw [pyStrip_dt_isoformat dt hdd hdt, dateTimeFromIso_isoformat dt hdd hdt]
    rfl
  · show (timeFromIso (pyStrip t.isoformat)).map TypedValue.vTime = some (.vTime t)
    rw [pyStrip_time_isoformat t ht, timeFromIso_isoformat t ht]
    rfl

/-- Witness for `wire_roundtrip_amended` at concrete values (a leap-day date). -/
theorem wire_roundtrip_amended_witness :
    item_normalizer_conv "date" (encodeCell (.vDate ⟨2024, 2, 29⟩))
      = some (.vDate ⟨2024, 2, 29⟩) :=
  (wire_roundtrip_amended 0 0 ⟨2024, 2, 29⟩ ⟨9, 55, 30⟩ ⟨⟨2024, 2, 29⟩, ⟨9, 55, 30⟩⟩ "x"
    (by decide) (by decide) (by decide) (by decide)).2.2.2.1
